import Mathlib

/-!
Shallow embedding of `src/update/menu.go` (package `update` of the flux
repository): the interactive terminal selection menu, consisting of the
redraw buffer (`ClearableWriter`), the menu model (`Menu`, `MenuItem`),
the render pass, the main interaction loop (`Run`) and the input decoder
(`getChar`).

Go slices become Lean lists, Go strings become Lean `String`s (compared
and concatenated like Go does), Go `int`s in this file are only ever
non-negative counters/indices and are modelled as `Nat`.  Operations that
can panic at run time (index out of range, modulo by zero, nil-pointer
dereference) return `Option`, with `none` standing for the panic.
Terminal output is modelled as a list of emitted chunks.
-/

namespace FluxUpdate

/-- One chunk emitted to the output sink.  `data` is ordinary text written
through `ClearableWriter.Write`; `moveUp n` is the ANSI escape sequence
`"\x1b[<n>A"` that `Clear` produces via `fmt.Fprintf(c.wf, clearLines, c.lines)`.
Text is kept as `List Char`. -/
inductive OutChunk where
  | data (p : List Char)
  | moveUp (n : Nat)
  deriving DecidableEq, Repr

/-- State of the redraw buffer `ClearableWriter`: the wrapped sink is
modelled by the list of chunks written to it so far (`output`), and
`lines` is the running count of line-break characters (field `lines`). -/
structure ClearableWriter where
  lines : Nat
  output : List OutChunk
  deriving DecidableEq, Repr

/-- Constructor `NewClearableWriter`: a fresh buffer with line count 0
(the `tabwriter` sink it wraps is modelled by the empty output list). -/
def NewClearableWriter : ClearableWriter := ⟨0, []⟩

/-- Number of line-break characters in a chunk of text, as counted by the
loop `for _, b := range p { if b == '\n' { c.lines++ } }`. -/
def countNewlines (p : List Char) : Nat :=
  p.countP (fun b => b = '\n')

/-- Method `Write`: forwards the bytes to the sink unchanged and
increments `lines` once per `'\n'` encountered. -/
def ClearableWriter.Write (c : ClearableWriter) (p : List Char) : ClearableWriter :=
  { lines := c.lines + countNewlines p, output := c.output ++ [OutChunk.data p] }

/-- Writing a sequence of chunks one after the other. -/
def ClearableWriter.writeAll (c : ClearableWriter) (ps : List (List Char)) : ClearableWriter :=
  ps.foldl ClearableWriter.Write c

/-- Method `Clear`: emits the move-cursor-up escape parameterised
by the current line count, then resets the count to zero. -/
def ClearableWriter.Clear (c : ClearableWriter) : ClearableWriter :=
  { lines := 0, output := c.output ++ [OutChunk.moveUp c.lines] }

/-- Total newline count of a list of chunks. -/
def countNewlinesAll (ps : List (List Char)) : Nat :=
  (ps.map countNewlines).sum

theorem writeAll_lines (c : ClearableWriter) (ps : List (List Char)) :
    (c.writeAll ps).lines = c.lines + countNewlinesAll ps := by
  induction ps generalizing c with
  | nil => simp [ClearableWriter.writeAll, countNewlinesAll]
  | cons p ps ih =>
      simp [ClearableWriter.writeAll, countNewlinesAll, ClearableWriter.Write] at *
      rw [ih]
      simp [countNewlinesAll, Nat.add_assoc]

theorem writeAll_output (c : ClearableWriter) (ps : List (List Char)) :
    (c.writeAll ps).output = c.output ++ ps.map OutChunk.data := by
  induction ps generalizing c with
  | nil => simp [ClearableWriter.writeAll]
  | cons p ps ih =>
      simp [ClearableWriter.writeAll, ClearableWriter.Write] at *
      rw [ih]
      simp

/-! ## Domain value objects

These types live in the flux repository outside `src/update/menu.go`
(package-level release types and `flux.ResourceID`), so they are modelled
from the spec, which treats them as opaque data the menu only displays. -/

/-- Modelled from the spec: a per-container update descriptor
`\x7bcontainerName, currentValue, targetTag\x7d` (`ContainerUpdate` with fields
`Container`, `Current` whose `String()` form is stored directly, and
`Target.Tag` stored as `TargetTag`); the menu only formats these fields. -/
structure ContainerUpdate where
  Container : String
  Current : String
  TargetTag : String
  deriving DecidableEq, Repr

/-- Modelled from the spec: the status enum is an opaque domain enum
rendered as text (`ControllerUpdateStatus` is a string type in the
repository), so it is modelled as `String`. -/
abbrev ControllerUpdateStatus := String

/-- Modelled from the spec: the status value `"ignored"`. -/
def ReleaseStatusIgnored : ControllerUpdateStatus := "ignored"

/-- Modelled from the spec: the status value `"skipped"`. -/
def ReleaseStatusSkipped : ControllerUpdateStatus := "skipped"

/-- Modelled from the spec: a per-resource outcome record
`\x7bstatus, error (may be empty), perContainerUpdates\x7d`. -/
structure ControllerResult where
  Status : ControllerUpdateStatus
  Error : String
  PerContainer : List ContainerUpdate
  deriving DecidableEq, Repr

/-- Modelled from the spec: the input result mapping, keyed by resource
identifier.  `results.ServiceIDs()` iterates identifiers in lexicographic
order and `flux.MustParseResourceID` round-trips with `id.String()` (the
spec treats identifier parsing as an upstream-validated precondition), so
the mapping is modelled as the association list already in that iteration
order, with the identifier kept as its string form. -/
abbrev Result := List (String × ControllerResult)

/-! ## Menu model (`MenuItem`, `Menu`) -/

/-- Struct `MenuItem`: one displayable row.  The Go field `update` is a
pointer `*ContainerUpdate`; here `update` holds the value observed when
that pointer is dereferenced (with `none` for a nil pointer). -/
structure MenuItem where
  id : String
  status : ControllerUpdateStatus
  error : String
  update : Option ContainerUpdate
  selected : Bool
  deriving DecidableEq, Repr

/-- Method `selectable`: a row is selectable iff its update pointer is
non-nil (`i.update != nil`). -/
def MenuItem.selectable (i : MenuItem) : Bool :=
  i.update.isSome

/-- Struct `Menu`: output buffer, the input results, the ordered row
list, the cursor, and the selectable-row counter. -/
structure Menu where
  out : ClearableWriter
  results : Result
  items : List MenuItem
  cursor : Nat
  selectable : Nat
  deriving DecidableEq, Repr

/-- Method `AddItem`: appends the row; if it is selectable, increments
the selectable counter. -/
def Menu.AddItem (m : Menu) (mi : MenuItem) : Menu :=
  { m with
    items := m.items ++ [mi]
    selectable := if mi.selectable then m.selectable + 1 else m.selectable }

/-- Rows contributed by one resource outcome (the loop body of
`fromResults` after the verbosity filter): a non-selectable error row when
`result.Error != ""`, then one row per element of `result.PerContainer`.
The Go code stores `update: &upd` where `upd` is the single loop variable
of `for _, upd := range result.PerContainer`; every row of this resource
therefore holds the same pointer, and by the time any of those pointers is
dereferenced (during `Render` or `Run`, after `fromResults` has returned)
the variable holds the final element of `result.PerContainer`.  The
embedding records that observed value: each per-container row carries
`result.PerContainer.getLast?`. -/
def resourceRows (id : String) (result : ControllerResult) : List MenuItem :=
  (if result.Error ≠ "" then
    [{ id := id, status := result.Status, error := result.Error,
       update := none, selected := false }]
  else []) ++
  result.PerContainer.map (fun _upd =>
    { id := id, status := result.Status, error := "",
      update := result.PerContainer.getLast?, selected := false })

/-- Verbosity filter of `fromResults` (the `switch result.Status` with
`continue`): `true` means the resource is skipped entirely. -/
def skipResource (status : ControllerUpdateStatus) (verbosity : Nat) : Bool :=
  if status = ReleaseStatusIgnored then decide (verbosity < 2)
  else if status = ReleaseStatusSkipped then decide (verbosity < 1)
  else false

/-- Method `fromResults`: iterate the resources in `ServiceIDs()` order,
skip per the verbosity filter, and `AddItem` each contributed row. -/
def Menu.fromResults (m : Menu) (results : Result) (verbosity : Nat) : Menu :=
  results.foldl
    (fun m p =>
      if skipResource p.2.Status verbosity then m
      else (resourceRows p.1 p.2).foldl Menu.AddItem m)
    m

/-- Constructor `NewMenu`: fresh output buffer (wrapping the tab-aligning
sink), the results stored, then `fromResults`.  `cursor` and `selectable`
start at 0. -/
def NewMenu (results : Result) (verbosity : Nat) : Menu :=
  Menu.fromResults
    { out := NewClearableWriter, results := results, items := [],
      cursor := 0, selectable := 0 }
    results verbosity

/-! ## Render pass -/

/-- Method `checkbox`: blank for a non-selectable row, a filled circle
when selected, an outlined circle otherwise.  Each Go return value is a
one-character string, kept here as the character. -/
def MenuItem.checkbox (i : MenuItem) : Char :=
  if ¬ i.selectable then ' '
  else if i.selected then '◉'
  else '◯'

/-- Method `updates`: the formatted update
`"<container>: <current> -> <targetTag>"` when the update pointer is
non-nil, else the error string. -/
def MenuItem.updates (i : MenuItem) : String :=
  match i.update with
  | some u => u.Container ++ ": " ++ u.Current ++ " -> " ++ u.TargetTag
  | none => i.error

/-- Method `renderItem`, as the emitted line: the cursor marker (`'>'`
when `cursor` holds, else a blank), the checkbox, then
`fmt.Fprintf "%s%s %s\t%s\t%s\n"` with the identifier's string form, the
status and `updates()`. -/
def renderItemLine (item : MenuItem) (cursor : Bool) : List Char :=
  (if cursor then '>' else ' ') :: item.checkbox :: ' ' ::
    (item.id.toList ++ '\t' :: String.toList item.status ++
      '\t' :: (item.updates).toList ++ ['\n'])

/-- The data lines of `Render`'s loop: `i` is the running counter that is
compared against the cursor and incremented only on selectable rows. -/
def itemLines (items : List MenuItem) (i : Nat) (cursor : Nat) : List (List Char) :=
  match items with
  | [] => []
  | item :: rest =>
      renderItemLine item (i = cursor) ::
        itemLines rest (if item.selectable then i + 1 else i) cursor

/-- Header line `"   CONTROLLER \tSTATUS \tUPDATES"` followed by the
newline that `fmt.Fprintln` appends. -/
def headerLine : List Char :=
  ("   CONTROLLER \tSTATUS \tUPDATES").toList ++ ['\n']

/-- Everything one `Render` call writes through `m.out`, in order. -/
def renderChunks (m : Menu) : List (List Char) :=
  headerLine :: itemLines m.items 0 m.cursor

/-- Method `Render`: clear the previous paint, then write the header and
one line per row.  The `fmt.Printf(hideCursor)` goes to the process
stdout, not through `m.out`, and `Flush` only delegates to the sink, so
neither appears in the buffer model. -/
def Menu.Render (m : Menu) : Menu :=
  { m with out := (m.out.Clear).writeAll (renderChunks m) }

/-! ## Navigation and toggling

Operations that can panic return `Option Menu`, `none` being the panic. -/

/-- Method `toggleCursor`: `m.items[m.cursor].selected = !m.items[m.cursor].selected`
— the cursor indexes the raw `items` slice here; `none` models the
index-out-of-range panic when `cursor ≥ items.length`.  Then `Render`. -/
def Menu.toggleCursor (m : Menu) : Option Menu :=
  match m.items.get? m.cursor with
  | none => none
  | some item =>
      some (Menu.Render
        { m with items := m.items.set m.cursor { item with selected := ¬ item.selected } })

/-- Method `cursorDown`: `m.cursor = (m.cursor + 1) % m.selectable`, then
`Render`; `none` models the runtime panic (integer divide by zero) that
Go's `%` raises when `m.selectable == 0`. -/
def Menu.cursorDown (m : Menu) : Option Menu :=
  if m.selectable = 0 then none
  else some (Menu.Render { m with cursor := (m.cursor + 1) % m.selectable })

/-- Method `cursorUp`: `m.cursor = (m.cursor + m.selectable - 1) % m.selectable`,
then `Render`; `none` models the modulo-by-zero panic. -/
def Menu.cursorUp (m : Menu) : Option Menu :=
  if m.selectable = 0 then none
  else some (Menu.Render { m with cursor := (m.cursor + m.selectable - 1) % m.selectable })

/-! ## The interaction loop `Run` -/

/-- One decoded read, as `Run` receives it from `getChar`: the two `int`
results plus whether `err != nil`. -/
structure Event where
  ascii : Nat
  keyCode : Nat
  err : Bool
  deriving DecidableEq, Repr

/-- Outcome of the loop.  `done` carries the returned
`(selected, aborted)` pair and the lines the loop printed (`"Aborted."`
via `fmt.Fprintln`, the empty line of `fmt.Println()`); `panicked` models
a runtime panic inside the loop body; `pending` means the event list was
exhausted while the Go loop would still be blocked on the next read. -/
inductive RunResult where
  | done (selected : List ContainerUpdate) (aborted : Bool) (msgs : List String)
  | panicked
  | pending
  deriving DecidableEq, Repr

/-- The Enter branch: `for _, item := range m.items { if item.selected {
selected = append(selected, *item.update) } }`.  Dereferencing a nil
`update` pointer panics, modelled by `none`. -/
def collectSelected (items : List MenuItem) : Option (List ContainerUpdate) :=
  match items with
  | [] => some []
  | item :: rest =>
      if item.selected then
        match item.update with
        | none => none
        | some u => (collectSelected rest).map (fun l => u :: l)
      else collectSelected rest

/-- The body of `Run`'s `for` loop over the successive `getChar` results.
`acc` is the local `selected` slice (only ever appended to in the Enter
branch, which returns at once).  Note that in Go the arrow-key checks run
in the same iteration after a Space toggle, which the sequencing below
mirrors. -/
def runLoopAux (m : Menu) (acc : List ContainerUpdate) : List Event → RunResult
  | [] => RunResult.pending
  | e :: es =>
      if e.ascii = 3 ∨ e.ascii = 27 ∨ e.err = true then
        RunResult.done acc true ["Aborted."]
      else
        match
          (if e.ascii = 32 then
            match m.toggleCursor with
            | none => none
            | some m1 => some (Sum.inl m1)
          else if e.ascii = 13 then
            match collectSelected m.items with
            | none => none
            | some sel => some (Sum.inr (acc ++ sel))
          else some (Sum.inl m)) with
        | none => RunResult.panicked
        | some (Sum.inr sel) => RunResult.done sel false [""]
        | some (Sum.inl m1) =>
            if e.keyCode = 40 then
              match m1.cursorDown with
              | none => RunResult.panicked
              | some m2 => runLoopAux m2 acc es
            else if e.keyCode = 38 then
              match m1.cursorUp with
              | none => RunResult.panicked
              | some m2 => runLoopAux m2 acc es
            else runLoopAux m1 acc es

/-- Method `Run`: render once, then loop over the decoded events.  The
deferred `fmt.Printf(showCursor)` goes to the process stdout and is not
part of the buffer model. -/
def Menu.Run (m : Menu) (events : List Event) : RunResult :=
  runLoopAux m.Render [] events

/-! ## Input decoder `getChar` -/

/-- One side effect `getChar` performs on the terminal device, in the
order performed: `term.Open("/dev/tty")`, `term.RawMode(t)`, `t.Read`,
`t.Restore()`, `t.Close()`. -/
inductive TermAction where
  | openDev
  | rawMode
  | read
  | restore
  | close
  deriving DecidableEq, Repr

/-- What `getChar` returns together with the device actions it performed
on the way.  `err` records whether the returned `error` is non-nil. -/
structure GetCharOut where
  ascii : Nat
  keyCode : Nat
  err : Bool
  actions : List TermAction
  deriving DecidableEq, Repr

/-- Function `getChar`, over the behaviour of the terminal device on this
call: `openErr` is whether `term.Open` fails, `readErr` whether `t.Read`
fails, and `numRead`/`b0 b1 b2` the read result otherwise.  The source
binds `term.Open`'s error to `_`, so `openErr` influences nothing that is
returned; on `readErr` the source returns immediately, before the
`t.Restore()` and `t.Close()` calls; otherwise it decodes a three-byte
`ESC [` sequence into the Javascript key codes 38/40/39/37, or a single
byte into `ascii`, and then restores and closes the device. -/
def getChar (openErr : Bool) (readErr : Bool) (numRead : Nat)
    (b0 b1 b2 : Nat) : GetCharOut :=
  let openActs := [TermAction.openDev, TermAction.rawMode, TermAction.read]
  let _ := openErr
  if readErr then
    { ascii := 0, keyCode := 0, err := true, actions := openActs }
  else
    let done (ascii keyCode : Nat) : GetCharOut :=
      { ascii := ascii, keyCode := keyCode, err := false,
        actions := openActs ++ [TermAction.restore, TermAction.close] }
    if numRead = 3 ∧ b0 = 27 ∧ b1 = 91 then
      if b2 = 65 then done 0 38
      else if b2 = 66 then done 0 40
      else if b2 = 67 then done 0 39
      else if b2 = 68 then done 0 37
      else done 0 0
    else if numRead = 1 then done b0 0
    else done 0 0

/-! ## Helper lemmas -/

theorem Render_items (m : Menu) : m.Render.items = m.items := rfl

theorem Render_cursor (m : Menu) : m.Render.cursor = m.cursor := rfl

theorem Render_selectable (m : Menu) : m.Render.selectable = m.selectable := rfl

theorem Render_results (m : Menu) : m.Render.results = m.results := rfl

theorem mod_down_up (c s : Nat) (h : c < s) : ((c + 1) % s + s - 1) % s = c := by
  have h1 : (c + 1) % s + s - 1 = (c + 1) % s + (s - 1) := by omega
  rw [h1, Nat.mod_add_mod]
  have h2 : c + 1 + (s - 1) = c + s := by omega
  rw [h2, Nat.add_mod_right, Nat.mod_eq_of_lt h]

theorem mod_up_down (c s : Nat) (h : c < s) : ((c + s - 1) % s + 1) % s = c := by
  rw [Nat.mod_add_mod]
  have h2 : c + s - 1 + 1 = c + s := by omega
  rw [h2, Nat.add_mod_right, Nat.mod_eq_of_lt h]

/-! ## Claim theorems -/

/-- Claim C8: the redraw buffer's tracked line count equals the number of
line-break characters written through `Write` since the last `Clear`;
each `Clear` emits a move-cursor-up chunk parameterised by exactly the
current count and resets the count to zero; and consequently each
`Render`'s clear moves up by exactly the number of line breaks the
previous `Render` emitted (the second `Render` below emits
`moveUp` of the first one's newline count). -/
theorem clearable_writer_line_tracking :
    (∀ (c : ClearableWriter) (ps : List (List Char)),
        ((c.Clear).writeAll ps).lines = countNewlinesAll ps) ∧
    (∀ c : ClearableWriter,
        (c.Clear).output = c.output ++ [OutChunk.moveUp c.lines] ∧
        (c.Clear).lines = 0) ∧
    (∀ m : Menu,
        m.Render.out.lines = countNewlinesAll (renderChunks m) ∧
        m.Render.Render.out.output =
          m.Render.out.output ++
            OutChunk.moveUp (countNewlinesAll (renderChunks m)) ::
              (renderChunks m).map OutChunk.data) := by
  refine ⟨?_, ?_, ?_⟩
  · intro c ps
    rw [writeAll_lines]
    simp [ClearableWriter.Clear]
  · intro c
    simp [ClearableWriter.Clear]
  · intro m
    have hlines : ∀ m0 : Menu, m0.Render.out.lines = countNewlinesAll (renderChunks m0) := by
      intro m0
      show (((m0.out.Clear).writeAll (renderChunks m0))).lines = _
      rw [writeAll_lines]
      simp [ClearableWriter.Clear]
    refine ⟨hlines m, ?_⟩
    have houtput : ∀ m0 : Menu,
        m0.Render.out.output =
          m0.out.output ++ OutChunk.moveUp m0.out.lines :: (renderChunks m0).map OutChunk.data := by
      intro m0
      show (((m0.out.Clear).writeAll (renderChunks m0))).output = _
      rw [writeAll_output]
      simp [ClearableWriter.Clear]
    have hchunks : renderChunks m.Render = renderChunks m := rfl
    rw [houtput m.Render, hchunks, hlines m]

/-- Claim C9: for any menu with positive selectable count and a valid
cursor position, `cursorDown` followed by `cursorUp` (and vice versa)
restores the cursor to its original position. -/
theorem cursor_down_up_roundtrip (m : Menu) (hpos : 0 < m.selectable)
    (hcur : m.cursor < m.selectable) :
    ((m.cursorDown.bind Menu.cursorUp).map Menu.cursor = some m.cursor) ∧
    ((m.cursorUp.bind Menu.cursorDown).map Menu.cursor = some m.cursor) := by
  have hs : m.selectable ≠ 0 := by omega
  constructor
  · simp only [Menu.cursorDown, Menu.cursorUp, Menu.Render, hs, if_false, Option.bind_some,
      Option.map_some]
    simp [mod_down_up m.cursor m.selectable hcur]
    exact ⟨_, ⟨hs, rfl⟩, rfl⟩
  · simp only [Menu.cursorDown, Menu.cursorUp, Menu.Render, hs, if_false, Option.bind_some,
      Option.map_some]
    simp [mod_up_down m.cursor m.selectable hcur]
    exact ⟨_, ⟨hs, rfl⟩, rfl⟩

/-- Closed witness for C9 at a concrete two-row menu. -/
theorem cursor_down_up_roundtrip_witness :
    (0 < (2 : Nat) ∧ (0 : Nat) < 2) ∧
    ((({ out := NewClearableWriter, results := [], items := [], cursor := 0,
         selectable := 2 : Menu }).cursorDown.bind Menu.cursorUp).map Menu.cursor =
      some 0) := by
  refine ⟨by decide, ?_⟩
  exact (cursor_down_up_roundtrip
    { out := NewClearableWriter, results := [], items := [], cursor := 0, selectable := 2 }
    (by decide) (by decide)).1

/-- Claim C10: with a positive selectable count, `cursorDown` and
`cursorUp` change only the cursor: the row sequence (hence every row's
`selected` flag), the selectable count and the stored result data are
unchanged. -/
theorem cursor_nav_frame (m : Menu) (hpos : 0 < m.selectable) :
    (m.cursorDown.map Menu.items = some m.items ∧
     m.cursorDown.map Menu.selectable = some m.selectable ∧
     m.cursorDown.map Menu.results = some m.results) ∧
    (m.cursorUp.map Menu.items = some m.items ∧
     m.cursorUp.map Menu.selectable = some m.selectable ∧
     m.cursorUp.map Menu.results = some m.results) := by
  have hs : m.selectable ≠ 0 := by omega
  simp [Menu.cursorDown, Menu.cursorUp, Menu.Render, hs]

/-- Closed witness for C10 at a concrete menu with two selectable slots. -/
theorem cursor_nav_frame_witness :
    (0 < (2 : Nat)) ∧
    (({ out := NewClearableWriter, results := [], items := [], cursor := 0,
        selectable := 2 : Menu }).cursorDown.map Menu.items = some []) := by
  refine ⟨by decide, ?_⟩
  exact (cursor_nav_frame
    { out := NewClearableWriter, results := [], items := [], cursor := 0, selectable := 2 }
    (by decide)).1.1

/-- Menu built from an empty result set: no rows, selectable count 0. -/
def emptyMenu : Menu := NewMenu [] 0

/-- Claim C3 (code behaviour at the failing input): on a menu with zero
selectable rows, `cursorDown` and `cursorUp` hit the modulo-by-zero
runtime panic and `toggleCursor` hits the index-out-of-range panic
(modelled by `none`), instead of being guarded no-ops. -/
theorem nav_zero_selectable_panics :
    emptyMenu.selectable = 0 ∧
    emptyMenu.cursorDown = none ∧
    emptyMenu.cursorUp = none ∧
    emptyMenu.toggleCursor = none := by
  refine ⟨rfl, rfl, rfl, rfl⟩

/-- Claim C4 (code behaviour at the failing inputs): when `t.Read` fails,
`getChar` returns the error but performs neither `Restore` nor `Close`;
and a failing `term.Open` is invisible in the returned value (its error is
bound to `_`), so the caller sees no error at all. -/
theorem getChar_read_error_skips_restore :
    ((getChar false true 0 0 0 0).err = true ∧
     (getChar false true 0 0 0 0).actions =
       [TermAction.openDev, TermAction.rawMode, TermAction.read] ∧
     TermAction.restore ∉ (getChar false true 0 0 0 0).actions ∧
     TermAction.close ∉ (getChar false true 0 0 0 0).actions) ∧
    (getChar true false 1 97 0 0 = getChar false false 1 97 0 0 ∧
     (getChar true false 1 97 0 0).err = false) := by
  decide

/-! ## Concrete inputs used to exercise the code -/

/-- A first per-container update descriptor. -/
def updA : ContainerUpdate := ⟨"appA", "img:1.0", "1.1"⟩

/-- A second, distinct per-container update descriptor. -/
def updB : ContainerUpdate := ⟨"appA", "img:1.0", "1.2"⟩

/-- One resource whose outcome has both a top-level error and one
per-container update: its menu has a non-selectable error row followed by
a selectable row. -/
def resultsErrAndUpd : Result := [("svc", ⟨"success", "boom", [updA]⟩)]

/-- Menu built from `resultsErrAndUpd` at verbosity 0. -/
def menuErrAndUpd : Menu := NewMenu resultsErrAndUpd 0

/-- One resource with two per-container updates and no error: its menu
has two selectable rows. -/
def resultsTwoUpds : Result := [("svc", ⟨"success", "", [updA, updB]⟩)]

/-- Menu built from `resultsTwoUpds` at verbosity 0. -/
def menuTwoUpds : Menu := NewMenu resultsTwoUpds 0

/-- Claim C1 (code behaviour at the failing input): on the reachable menu
`menuErrAndUpd` (a non-selectable error row, then a selectable row,
cursor 0), `toggleCursor` indexes the raw row list and flips the
non-selectable row's `selected` flag to `true`, breaking the invariant
that non-selectable rows always have `selected == false`. -/
theorem toggle_flips_nonselectable_row :
    (menuErrAndUpd.items.map (fun i => (i.selectable, i.selected)) =
      [(false, false), (true, false)]) ∧
    (menuErrAndUpd.toggleCursor).map
        (fun m => m.items.map (fun i => (i.selectable, i.selected))) =
      some [(false, true), (true, false)] := by
  decide

/-- Claim C2 (code behaviour at the failing input): both rows built from
the two distinct descriptors `updA`, `updB` observe the same aliased loop
variable, which holds the last descriptor, so toggling the first row and
pressing Enter returns `[updB]` where the claim demands `[updA]`. -/
theorem enter_returns_aliased_last_update :
    updA ≠ updB ∧
    menuTwoUpds.items.map MenuItem.update = [some updB, some updB] ∧
    Menu.Run menuTwoUpds [⟨32, 0, false⟩, ⟨13, 0, false⟩] =
      RunResult.done [updB] false [""] := by
  decide

/-- Claim C5 counterexample: in `menuErrAndUpd` (cursor 0, the only
selectable row is row 1) the render loop puts the `'>'` marker on both
lines — on the non-selectable row 0 as well as on the designated row — so
the marker does not appear on exactly the one designated row. -/
theorem render_marker_counterexample :
    ((itemLines menuErrAndUpd.items 0 menuErrAndUpd.cursor).map (fun l => l.head?)) =
      [some '>', some '>'] ∧
    menuErrAndUpd.items.map MenuItem.selectable = [false, true] ∧
    menuErrAndUpd.cursor = 0 := by
  decide

theorem itemLines_marker (items : List MenuItem) (cursor : Nat) :
    ∀ (i j : Nat), j < items.length →
      ((((itemLines items i cursor).getD j []).head? = some '>') ↔
        i + (items.take j).countP (fun it => MenuItem.selectable it) = cursor) := by
  induction items with
  | nil => intro i j h; simp at h
  | cons item rest ih =>
      intro i j h
      cases j with
      | zero =>
          simp only [itemLines, List.getD_cons_zero, List.take_zero, List.countP_nil,
            Nat.add_zero, renderItemLine]
          by_cases hc : i = cursor
          · simp [hc]
          · simp [hc]
      | succ j =>
          simp only [itemLines, List.getD_cons_succ, List.take_succ_cons, List.countP_cons]
          have hj : j < rest.length := by simpa using h
          by_cases hsel : item.selectable
          · rw [if_pos hsel, if_pos hsel, ih (i + 1) j hj]
            omega
          · rw [if_neg hsel, if_neg hsel, ih i j hj]
            omega

/-- Claim C5 amended: in the lines `Render` emits for the data rows, the
cursor-marker glyph appears on row `j` if and only if the number of
selectable rows strictly before `j` equals the cursor — that is exactly
the cursor-designated selectable row, but also every non-selectable row
preceded by exactly `cursor` selectable rows. -/
theorem render_marker_rule (m : Menu) (j : Nat) (h : j < m.items.length) :
    (((itemLines m.items 0 m.cursor).getD j []).head? = some '>') ↔
      (m.items.take j).countP (fun it => MenuItem.selectable it) = m.cursor := by
  have h0 := itemLines_marker m.items m.cursor 0 j h
  simpa using h0

/-- Closed witness for the amended C5 at `menuErrAndUpd`, row 0. -/
theorem render_marker_rule_witness :
    (0 < menuErrAndUpd.items.length) ∧
    ((((itemLines menuErrAndUpd.items 0 menuErrAndUpd.cursor).getD 0 []).head? = some '>') ↔
      (menuErrAndUpd.items.take 0).countP (fun it => MenuItem.selectable it) =
        menuErrAndUpd.cursor) :=
  ⟨by decide, render_marker_rule menuErrAndUpd 0 (by decide)⟩

/-! ## Verbosity filtering (C7) -/

/-- The row list `fromResults` produces, written as a flat list: each
non-skipped resource contributes its `resourceRows` block in iteration
order. -/
def menuRows (rs : Result) (v : Nat) : List MenuItem :=
  rs.flatMap (fun p => if skipResource p.2.Status v then [] else resourceRows p.1 p.2)

theorem foldl_AddItem_items (rows : List MenuItem) :
    ∀ m : Menu, (rows.foldl Menu.AddItem m).items = m.items ++ rows := by
  induction rows with
  | nil => intro m; simp
  | cons r rows ih =>
      intro m
      simp only [List.foldl_cons, ih, Menu.AddItem]
      simp

theorem fromResults_items (rs : Result) :
    ∀ (m : Menu) (v : Nat), (Menu.fromResults m rs v).items = m.items ++ menuRows rs v := by
  induction rs with
  | nil => intro m v; simp [Menu.fromResults, menuRows]
  | cons p rs ih =>
      intro m v
      show (Menu.fromResults
        (if skipResource p.2.Status v then m else (resourceRows p.1 p.2).foldl Menu.AddItem m)
        rs v).items = _
      rw [ih]
      by_cases h : skipResource p.2.Status v = true
      · simp [menuRows, h]
      · rw [if_neg h, foldl_AddItem_items]
        simp [menuRows, h, List.append_assoc]

theorem skipResource_mono (status : ControllerUpdateStatus) (v : Nat) :
    skipResource status (v + 1) = true → skipResource status v = true := by
  unfold skipResource
  split_ifs
  · simp only [decide_eq_true_eq]
    omega
  · simp only [decide_eq_true_eq]
    omega
  · exact id

theorem menuRows_sublist (rs : Result) (v : Nat) :
    (menuRows rs v).Sublist (menuRows rs (v + 1)) := by
  induction rs with
  | nil => simp [menuRows]
  | cons p rs ih =>
      simp only [menuRows, List.flatMap_cons] at *
      by_cases h1 : skipResource p.2.Status (v + 1) = true
      · rw [if_pos (skipResource_mono _ _ h1), if_pos h1]
        simpa using ih
      · rw [if_neg h1]
        by_cases h0 : skipResource p.2.Status v = true
        · rw [if_pos h0]
          simp only [List.nil_append]
          exact ih.trans (List.sublist_append_right _ _)
        · rw [if_neg h0]
          exact ih.append_left _

/-- Claim C7: `fromResults` skips a resource exactly when its status is
`"ignored"` with verbosity below 2 or `"skipped"` with verbosity below 1,
and the produced row list at any verbosity is a sublist (ordered subset)
of the row list at the next verbosity level. -/
theorem verbosity_filter_rule_and_monotone :
    (∀ (status : ControllerUpdateStatus) (v : Nat),
        skipResource status v = true ↔
          ((status = ReleaseStatusIgnored ∧ v < 2) ∨
            (status = ReleaseStatusSkipped ∧ v < 1))) ∧
    (∀ (rs : Result) (v : Nat),
        ((NewMenu rs v).items).Sublist ((NewMenu rs (v + 1)).items)) := by
  have hne : (ReleaseStatusIgnored : String) ≠ ReleaseStatusSkipped := by decide
  constructor
  · intro status v
    unfold skipResource
    split_ifs with h1 h2
    · simp [h1, hne]
    · simp [h1, h2, hne.symm]
    · simp [h1, h2]
  · intro rs v
    show (Menu.fromResults _ rs v).items.Sublist (Menu.fromResults _ rs (v + 1)).items
    rw [fromResults_items, fromResults_items]
    simpa using menuRows_sublist rs v

/-! ## Abort behaviour of the loop (C6) -/

theorem runLoopAux_aborted (es : List Event) :
    ∀ (m : Menu) (acc sel : List ContainerUpdate) (msgs : List String),
      runLoopAux m acc es = RunResult.done sel true msgs →
        sel = acc ∧ msgs = ["Aborted."] := by
  induction es with
  | nil =>
      intro m acc sel msgs h
      simp [runLoopAux] at h
  | cons e es ih =>
      intro m acc sel msgs h
      simp only [runLoopAux] at h
      split at h
      · injection h with h1 h2 h3
        exact ⟨h1.symm, h3.symm⟩
      · repeat' split at h
        all_goals
          first
          | exact RunResult.noConfusion h
          | exact ih _ _ _ _ h
          | (injection h with h1 h2 h3
             exact Bool.noConfusion h2)

/-- Claim C6: an escape key (27), interrupt key (3) or read error makes
`Run` print `"Aborted."` and return at once with `aborted == true` and an
empty selection; moreover any aborted outcome of `Run` carries the empty
selection and exactly that message, regardless of prior toggles. -/
theorem run_abort_returns_empty :
    (∀ (m : Menu) (e : Event) (es : List Event),
        (e.ascii = 3 ∨ e.ascii = 27 ∨ e.err = true) →
        m.Run (e :: es) = RunResult.done [] true ["Aborted."]) ∧
    (∀ (m : Menu) (es : List Event) (sel : List ContainerUpdate) (msgs : List String),
        m.Run es = RunResult.done sel true msgs → sel = [] ∧ msgs = ["Aborted."]) := by
  constructor
  · intro m e es habort
    show runLoopAux m.Render [] (e :: es) = _
    simp only [runLoopAux]
    rw [if_pos habort]
  · intro m es sel msgs h
    exact runLoopAux_aborted es m.Render [] sel msgs h

/-- Closed witness for C6: pressing Escape as the first key on a concrete
menu, with both parts of the theorem applied there. -/
theorem run_abort_returns_empty_witness :
    Menu.Run menuTwoUpds [⟨27, 0, false⟩] = RunResult.done [] true ["Aborted."] ∧
    (([] : List ContainerUpdate) = [] ∧ (["Aborted."] : List String) = ["Aborted."]) := by
  refine ⟨?_, ?_⟩
  · exact run_abort_returns_empty.1 menuTwoUpds ⟨27, 0, false⟩ [] (Or.inr (Or.inl rfl))
  · exact run_abort_returns_empty.2 menuTwoUpds [⟨27, 0, false⟩] [] ["Aborted."]
      (run_abort_returns_empty.1 menuTwoUpds ⟨27, 0, false⟩ [] (Or.inr (Or.inl rfl)))

end FluxUpdate
